import Mathlib

/-!
Verification of the stratified metrics accumulation engine of
`vivarium_conic_lsff`: the results stratifier, the per-observer
accumulators, the encoded-column naming scheme, and the batch
post-processing reshaper.

The embedding models the Python sources directly:

* `src/vivarium_conic_lsff/components/observers.py`
* `src/vivarium_conic_lsff/results_processing/process_results.py`
* `src/vivarium_conic_lsff/globals.py`

Population snapshots are lists of row records; pandas string columns are
lists of `Option String` cells (`none` is `NaN`); `collections.Counter`
objects are association lists from `String` keys to rational values;
floating point values are modelled by `ℚ`.
-/

/-! ## Python string primitives

The reshaper decodes encoded column names with `pandas.Series.str.split`,
which applies Python's `str.split(sep)` cell-wise.  We model `str.split`
directly on character lists so that everything evaluates by kernel
reduction.
-/

/-- Model of Python `s.startswith(sep)` on character lists. -/
def isPrefixCL : List Char → List Char → Bool
  | [], _ => true
  | _ :: _, [] => false
  | c :: cs, d :: ds => c = d && isPrefixCL cs ds

/-- Worker for `pySplit`.  `fuel` bounds the recursion; callers pass
`s.length + 1`, which always suffices because every step consumes at least
one character of `s` (the separator is nonempty whenever it is consumed). -/
def pySplitAux (sep : List Char) : Nat → List Char → List Char → List (List Char)
  | 0, s, acc => [acc.reverse ++ s]
  | fuel + 1, s, acc =>
    match s with
    | [] => [acc.reverse]
    | c :: rest =>
      if sep ≠ [] ∧ isPrefixCL sep s then
        acc.reverse :: pySplitAux sep fuel (s.drop sep.length) []
      else
        pySplitAux sep fuel rest (c :: acc)

/-- Model of Python `s.split(sep)` (without maxsplit): split `s` at every
non-overlapping occurrence of `sep`, scanning left to right.  A string
that does not contain `sep` yields the one-element list `[s]`. -/
def pySplit (sep s : String) : List String :=
  (pySplitAux sep.data (s.data.length + 1) s.data []).map String.mk

/-- Model of Python `sep.join(pieces)`. -/
def pyJoin (sep : String) : List String → String
  | [] => ""
  | [p] => p
  | p :: rest => p ++ sep ++ pyJoin sep rest

/-- Model of Python `s.replace(old, new)` (for nonempty `old`): replace
every non-overlapping occurrence of `old` by `new`, scanning left to
right.  Used by `post_process_hemoglobin` (`k.replace('mean', 'variance')`). -/
def pyReplace (s old new : String) : String :=
  pyJoin new (pySplit old s)

/-- Model of Python `s.lower()` for the ASCII strings appearing here. -/
def pyLower (s : String) : String :=
  String.mk (s.data.map Char.toLower)

/-! ## Pandas string-column machinery

`process_results.py` decodes a whole column at once with the idiom
`a, b, c = col.str.split(sep).str`.  A column is a list of
`Option String` cells (`none` models `NaN`).  `Series.str.split` maps the
split over the non-null cells; iterating the resulting `.str` accessor
yields the part-`i` columns for `i = 0, 1, ...` and stops at the first
index at which every cell is null, so tuple unpacking succeeds exactly
when the number of yielded part columns equals the number of targets.
A failed unpacking raises `ValueError`, modelled by `none`. -/

/-- Cell-wise split of a string column (`Series.str.split(sep)`). -/
def colSplit (sep : String) (col : List (Option String)) : List (Option (List String)) :=
  col.map (Option.map (pySplit sep))

/-- Part-`i` column of a split column (`split_col.str[i]`); a cell with
fewer than `i + 1` parts (or a null cell) yields `NaN`. -/
def colPart (col : List (Option (List String))) (i : Nat) : List (Option String) :=
  col.map (fun c => c.bind (fun parts => parts.get? i))

/-- Number of part columns yielded when iterating `split_col.str`:
the maximal number of parts of any non-null cell (iteration stops at the
first all-null part column). -/
def colNumParts (col : List (Option (List String))) : Nat :=
  col.foldr (fun c m => max ((c.map List.length).getD 0) m) 0

/-- Two-target unpacking `a, b = split_col.str`; `none` models the
`ValueError` raised when the number of part columns is not two. -/
def colUnpack2 (col : List (Option (List String))) :
    Option (List (Option String) × List (Option String)) :=
  if colNumParts col = 2 then some (colPart col 0, colPart col 1) else none

/-- Three-target unpacking `a, b, c = split_col.str`. -/
def colUnpack3 (col : List (Option (List String))) :
    Option (List (Option String) × List (Option String) × List (Option String)) :=
  if colNumParts col = 3 then some (colPart col 0, colPart col 1, colPart col 2) else none

/-- Columns produced by `split_processing_column` from the `process`
column of the pivoted data.  `cause` is only assigned when `with_cause`
is set (the reshaper produces no `sex` column for these measure
families). -/
structure ProcessedColumns where
  measure : List (Option String)
  cause : Option (List (Option String))
  year : List (Option String)
  age_group : List (Option String)
  folic_acid_fortification_group : List (Option String)
  vitamin_a_fortification_group : List (Option String)
deriving DecidableEq, Repr

/-- Model of `process_results.split_processing_column` (lines 161-169).
The source unpacks `process.str.split('_in_')` into measure, year and a
remainder; optionally splits the measure on `'_due_to_'`; takes part 1 of
the remainder split on `'age_group_'`; splits that on `'_folic_acid_'`
into the age group and a remainder; and splits the remainder on
`'_vitamin_a_'` into the two fortification-group columns.  `none` models
an uncaught `ValueError` from tuple unpacking. -/
def split_processing_column (process : List (Option String)) (with_cause : Bool) :
    Option ProcessedColumns :=
  (colUnpack3 (colSplit "_in_" process)).bind (fun myp =>
    let measure0 := myp.1
    let year := myp.2.1
    let process1 := myp.2.2
    (if with_cause then
        (colUnpack2 (colSplit "_due_to_" measure0)).map (fun mc => (mc.1, some mc.2))
      else some (measure0, none)).bind (fun mc =>
      let process2 := colPart (colSplit "age_group_" process1) 1
      (colUnpack2 (colSplit "_folic_acid_" process2)).bind (fun ap =>
        (colUnpack2 (colSplit "_vitamin_a_" ap.2)).map (fun fv =>
          { measure := mc.1
            cause := mc.2
            year := year
            age_group := ap.1
            folic_acid_fortification_group := fv.1
            vitamin_a_fortification_group := fv.2 }))))

/-! ## The encoding side of the column codec -/

/-- Fully stratified person-time column name, from
`globals.PERSON_TIME_COLUMN_TEMPLATE`
(`'person_time_in_{YEAR}_among_{SEX}_in_age_group_{AGE_GROUP}'`),
the template instantiated by `get_output_template` when `by_year`,
`by_sex` and `by_age` are all enabled. -/
def person_time_column (year sex age_group : String) : String :=
  "person_time_in_" ++ year ++ "_among_" ++ sex ++ "_in_age_group_" ++ age_group

/-- Key transformation applied by `ResultsStratifier.update_labels`
(observers.py lines 97-99): append
`'_folic_acid_{folic_acid_group}_vitamin_a_{vitamin_a_group}'`. -/
def update_labels_key (k folic_acid_group vitamin_a_group : String) : String :=
  k ++ "_folic_acid_" ++ folic_acid_group ++ "_vitamin_a_" ++ vitamin_a_group

example : pySplit "_in_" "foo" = ["foo"] := by decide

example :
    pySplit "_in_" (update_labels_key (person_time_column "2020" "male" "early_neonatal") "covered" "uncovered")
      = ["person_time", "2020_among_male",
         "age_group_early_neonatal_folic_acid_covered_vitamin_a_uncovered"] := by decide

/-! ## Simulated timestamps

The observers only compare `pandas` timestamps, take `max`/`min`, read
the `.year` attribute, and test for null; a calendar year plus an
ordinal day within the year, ordered lexicographically, suffices. -/

/-- Model of a `pandas.Timestamp`: a calendar year and a 0-based ordinal
day within that year. -/
structure Date where
  year : Int
  day : Nat
deriving DecidableEq, Repr

/-- Timestamp comparison `a <= b` (lexicographic on year, then day). -/
def Date.leb (a b : Date) : Bool :=
  decide (a.year < b.year) || (decide (a.year = b.year) && decide (a.day ≤ b.day))

/-- Timestamp comparison `a < b`. -/
def Date.ltb (a b : Date) : Bool :=
  decide (a.year < b.year) || (decide (a.year = b.year) && decide (a.day < b.day))

/-- Model of Python `max(a, b)` on timestamps. -/
def dateMax (a b : Date) : Date := if Date.leb b a then a else b

/-- Model of Python `min(a, b)` on timestamps. -/
def dateMin (a b : Date) : Date := if Date.leb a b then a else b

/-- Timestamp `pd.Timestamp(f'1-1-{year}')`: January 1 of the given year. -/
def jan1 (y : Int) : Date := ⟨y, 0⟩

/-! ## The results stratifier

`ResultsStratifier` (observers.py lines 26-122) stratifies every
population snapshot by folic-acid fortification coverage and by derived
vitamin-A fortification coverage.  A `Row` carries the columns the
stratifier and the disease observer read; the host guarantees the views
are row-aligned, so one record per simulant suffices. -/

/-- One simulant's row of the population table, restricted to the columns
used by `ResultsStratifier` and `DiseaseObserver`. -/
structure Row where
  idx : Nat
  folic_acid_fortification : String
  vitamin_a_raw : String
  vitamin_a_coverage_start : Option Date
  age : ℚ
  previous_state : String
  current_state : String
deriving DecidableEq, Repr

/-- Modelled from the spec: `globals.FOLIC_ACID_FORTIFICATION_GROUPS` is
referenced by `ResultsStratifier.group` but absent from the snapshot's
`globals.py`; the spec's §4.2 folic-acid coverage categories. -/
def FOLIC_ACID_FORTIFICATION_GROUPS : List String := ["covered", "uncovered"]

/-- Modelled from the spec: `globals.VITAMIN_A_FORTIFICATION_GROUPS` is
referenced by `ResultsStratifier.group` but absent from the snapshot's
`globals.py`; the spec's §4.2 "three ordered categories". -/
def VITAMIN_A_FORTIFICATION_GROUPS : List String :=
  ["uncovered", "covered", "effectively_covered"]

/-- Model of `ResultsStratifier.folic_acid_covered` (lines 102-104): the
raw value of the folic-acid fortification coverage column. -/
def folic_acid_covered (r : Row) : String := r.folic_acid_fortification

/-- Model of `ResultsStratifier.vitamin_a_covered` (lines 106-122).  The
pipeline value is mapped `cat1 -> 'uncovered'`, `cat2 ->
'effectively_covered'` (any other category becomes `NaN`); the masks are
computed from that mapped series, the coverage-start column and the age,
and are written back in the order `uncovered`, `covered`,
`effectively_covered`, so a later mask wins where masks overlap. -/
def vitamin_a_covered (r : Row) : Option String :=
  let raw : Option String :=
    if r.vitamin_a_raw = "cat1" then some "uncovered"
    else if r.vitamin_a_raw = "cat2" then some "effectively_covered"
    else none
  let started : Bool := r.vitamin_a_coverage_start.isSome
  let underage : Bool := decide (r.age ≤ 1/2)
  let uncovered : Bool := decide (raw = some "uncovered") && !started
  let covered : Bool :=
    (decide (raw = some "uncovered") && started)
      || (decide (raw = some "effectively_covered") && underage)
  let effectively_covered : Bool :=
    decide (raw = some "effectively_covered") && !underage
  if effectively_covered then some "effectively_covered"
  else if covered then some "covered"
  else if uncovered then some "uncovered"
  else raw

/-- Label space iterated by `ResultsStratifier.group`:
`itertools.product(FOLIC_ACID_FORTIFICATION_GROUPS,
VITAMIN_A_FORTIFICATION_GROUPS)`. -/
def stratificationLabels : List (String × String) :=
  FOLIC_ACID_FORTIFICATION_GROUPS.bind (fun fa =>
    VITAMIN_A_FORTIFICATION_GROUPS.map (fun va => (fa, va)))

/-- Row mask for one label pair of `ResultsStratifier.group` (lines
74-75): `(folic_acid_covered == folic_acid_group) &
(vitamin_a_covered == vitamin_a_group)`. -/
def in_group (g : String × String) (r : Row) : Bool :=
  decide (folic_acid_covered r = g.1) && decide (vitamin_a_covered r = some g.2)

/-- Model of `ResultsStratifier.group` (lines 51-76): for every label
pair of the declared product space, yield the label together with the
subgroup of rows assigned both labels (for an empty population the
population itself is yielded unfiltered, which is the same subgroup). -/
def stratifier_group (pop : List Row) : List ((String × String) × List Row) :=
  stratificationLabels.map (fun g =>
    (g, if pop.isEmpty then pop else pop.filter (in_group g)))

/-- Model of `ResultsStratifier.update_labels` (lines 78-100) on a
measure-data mapping represented as an association list. -/
def update_labels (measure_data : List (String × ℚ)) (labels : String × String) :
    List (String × ℚ) :=
  measure_data.map (fun e => (update_labels_key e.1 labels.1 labels.2, e.2))

/-! ## The accumulator

Each observer owns a `collections.Counter` (`self.person_time`,
`self.counts`, ...) and merges per-step partial mappings into it with
`Counter.update`, which adds each partial value to the existing total at
its key, treating an absent key as 0.  A `Counter` is modelled as an
association list in insertion order. -/

/-- Model of `Counter.__getitem__`: the value at `k`, defaulting to 0. -/
def counter_lookup : List (String × ℚ) → String → ℚ
  | [], _ => 0
  | e :: rest, k => if e.1 = k then e.2 else counter_lookup rest k

/-- Model of `Counter.__setitem__`: replace the value at an existing key
in place, or append a new key at the end. -/
def counter_set : List (String × ℚ) → String → ℚ → List (String × ℚ)
  | [], k, v => [(k, v)]
  | e :: rest, k, v => if e.1 = k then (e.1, v) :: rest else e :: counter_set rest k v

/-- Model of `Counter.update(partial)` for a mapping argument: for each
key of the partial, add its value to the existing total (0 if absent). -/
def counter_update (c : List (String × ℚ)) (p : List (String × ℚ)) : List (String × ℚ) :=
  p.foldl (fun acc e => counter_set acc e.1 (counter_lookup acc e.1 + e.2)) c

/-- Key-wise sum of the values a partial mapping contributes at `k`
(a partial coming from a Python dict mentions each key once, but the
definition is additive even with repeats). -/
def partial_sum : List (String × ℚ) → String → ℚ
  | [], _ => 0
  | e :: rest, k => (if e.1 = k then e.2 else 0) + partial_sum rest k

/-- Key-wise sum of a list of partial mappings, itself represented as a
counter: fold `Counter.update` over the partials starting from empty. -/
def key_wise_sum (ps : List (List (String × ℚ))) : List (String × ℚ) :=
  ps.foldl counter_update []

example :
    vitamin_a_covered ⟨0, "covered", "cat2", none, 3/10, "", ""⟩ = some "covered" := by
  with_unfolding_all decide

example :
    (stratifier_group []).map Prod.fst = stratificationLabels := by decide

/-! ## Generic dictionary lookup -/

/-- Value at key `k` of a Python dict modelled as an association list
(`none` when the key is absent). -/
def dict_find {α : Type} : List (String × α) → String → Option α
  | [], _ => none
  | e :: rest, k => if e.1 = k then some e.2 else dict_find rest k

/-! ## The disease observer: transition counts

`DiseaseObserver.on_collect_metrics` (observers.py lines 331-339) counts,
for every known transition and stratification subgroup, the individuals
whose shadow previous-state column equals the transition's source state
and whose current state column equals its target state, and accumulates
the labelled counts into `self.counts`. -/

/-- Modelled from the spec: `globals.TransitionString`, referenced by
`get_transition_count` but absent from the snapshot's `globals.py`, where
transitions are the strings `'{from}_TO_{to}'`; the type carries the two
endpoint state names. -/
structure TransitionString where
  from_state : String
  to_state : String
deriving DecidableEq, Repr

/-- The string form `'{from}_TO_{to}'` of a transition
(cf. `globals.DIARRHEA_MODEL_TRANSITIONS`). -/
def TransitionString.str (t : TransitionString) : String :=
  t.from_state ++ "_TO_" ++ t.to_state

/-- Model of `get_transition_count` (observers.py lines 362-373) for the
observer's default metrics configuration (`by_age` and `by_sex` disabled,
observers.py lines 258-266), with `by_year` kept as a parameter: the rows
whose `previous_{disease}` column equals the transition's source and whose
`{disease}` column equals its target are counted under the key
`'{transition}_event_count'`, with `'_in_{event_time.year}'` appended when
`by_year` is enabled. -/
def get_transition_count (pop : List Row) (t : TransitionString) (by_year : Bool)
    (event_time : Date) : List (String × ℚ) :=
  let transitioned := pop.filter (fun r =>
    decide (r.previous_state = t.from_state) && decide (r.current_state = t.to_state))
  [(t.str ++ "_event_count" ++ (if by_year then "_in_" ++ toString event_time.year else ""),
    (transitioned.length : ℚ))]

/-- Model of `DiseaseObserver.on_collect_metrics` (lines 331-339) for one
step: for every stratification subgroup and every known transition, merge
the labelled transition counts into the observer's counter. -/
def on_collect_metrics (counts : List (String × ℚ)) (pop : List Row)
    (transitions : List TransitionString) (by_year : Bool) (event_time : Date) :
    List (String × ℚ) :=
  (stratifier_group pop).foldl (fun acc g =>
    transitions.foldl (fun acc2 t =>
      counter_update acc2 (update_labels (get_transition_count g.2 t by_year event_time) g.1))
      acc) counts

/-! ## The birth observer

`LiveBirthWithNTDObserver.metrics` calls `get_births` (observers.py lines
427-468), which iterates the time spans produced by
`vivarium_public_health`'s `get_time_iterable`, clips each span to the
simulation bounds, and counts entrants inside the clipped half-open span,
together with the subset whose neural-tube-defect column holds the
with-condition state. -/

/-- Integer range `range(a, b)` as a list. -/
def intRange (a b : Int) : List Int :=
  (List.range (b - a).toNat).map (fun i => a + i)

/-- Modelled from the spec: `vivarium_public_health`'s `get_time_iterable`
(an external collaborator), which per §4.4 yields either one span per
calendar year from the simulation start's year through the simulation
end's year (each span being the whole calendar year), or a single
all-time span. -/
def get_time_iterable (by_year : Bool) (sim_start sim_end : Date) :
    List (String × (Date × Date)) :=
  if by_year then
    (intRange sim_start.year (sim_end.year + 1)).map
      (fun y => (toString y, (jan1 y, jan1 (y + 1))))
  else [("all_years", (sim_start, sim_end))]

/-- One simulant's row of the population table, restricted to the columns
`get_births` reads. -/
structure BRow where
  idx : Nat
  entrance_time : Date
  sex : String
  ntd_state : String
deriving DecidableEq, Repr

/-- Sex subgroups iterated by `get_group_counts` (an external
collaborator of `vivarium_public_health`): with `by_sex` enabled, one
subgroup per sex with the key suffix `'_among_{sex}'`; otherwise a single
unfiltered subgroup with no suffix. -/
def sexGroups (by_sex : Bool) : List (String × (BRow → Bool)) :=
  if by_sex then
    [("_among_male", fun r => r.sex == "Male"), ("_among_female", fun r => r.sex == "Female")]
  else [("", fun _ => true)]

/-- Model of `get_births` (observers.py lines 427-468): for every time
span, clip it to `[sim_start, sim_end)`, select the entrants with
`start <= entrance_time < end`, and emit the live-birth counts followed
by the neural-tube-defect birth counts (rows whose `neural_tube_defects`
column equals the with-condition state name). -/
def get_births (by_year by_sex : Bool) (pop : List BRow) (sim_start sim_end : Date) :
    List (String × ℚ) :=
  (get_time_iterable by_year sim_start sim_end).bind (fun sp =>
    let startd := dateMax sim_start sp.2.1
    let endd := dateMin sim_end sp.2.2
    let born_in_span := pop.filter (fun r =>
      Date.leb startd r.entrance_time && Date.ltb r.entrance_time endd)
    (sexGroups by_sex).map (fun sg =>
      ("live_births" ++ (if by_year then "_in_" ++ sp.1 else "") ++ sg.1,
       ((born_in_span.filter sg.2).length : ℚ)))
    ++ (sexGroups by_sex).map (fun sg =>
      ("born_with_ntds" ++ (if by_year then "_in_" ++ sp.1 else "") ++ sg.1,
       ((born_in_span.filter (fun r => sg.2 r && r.ntd_state == "neural_tube_defects")).length : ℚ))))

/-! ## The birth-weight observer

`get_birth_weights` (observers.py lines 506-531) groups the population by
entrance year, sex and maternal iron-fortification coverage, and reports
the mean and standard deviation of birth weight for every group of the
declared product space, substituting a placeholder single-element group
`[0.0]` for an absent group. -/

/-- Model of `pandas.Series.mean`: `none` is `NaN` (empty series). -/
def pandas_mean (l : List ℚ) : Option ℚ :=
  if l.isEmpty then none else some (l.sum / l.length)

/-- Model of `pandas.Series.std` up to the square root (the sample
variance, `ddof=1`): `none` is `NaN` (fewer than two samples).  The code
reports the square root of this value; since the square root is
irrational and strictly monotone, the key schema and the defined/`NaN`
status — all the claims rely on — are identical. -/
def pandas_var_sample (l : List ℚ) : Option ℚ :=
  if l.length < 2 then none
  else some ((l.map (fun x => (x - l.sum / l.length) * (x - l.sum / l.length))).sum
              / ((l.length : ℚ) - 1))

/-- One simulant's row of the population table, restricted to the columns
`get_birth_weights` reads. -/
structure BWRow where
  idx : Nat
  entrance_time : Date
  sex : String
  mother_iron_coverage : String
  birth_weight : ℚ
deriving DecidableEq, Repr

/-- Mean-birth-weight key emitted by `get_birth_weights` (line 526). -/
def birth_weight_mean_key (y : Int) (sex grp : String) : String :=
  "birth_weight_mean_in_" ++ toString y ++ "_among_" ++ pyLower sex
    ++ "_iron_fortification_group_" ++ pyLower grp

/-- Birth-weight standard-deviation key emitted by `get_birth_weights`
(line 527). -/
def birth_weight_sd_key (y : Int) (sex grp : String) : String :=
  "birth_weight_sd_in_" ++ toString y ++ "_among_" ++ pyLower sex
    ++ "_iron_fortification_group_" ++ pyLower grp

/-- Membership of a row in one group of the pandas groupby of
`get_birth_weights`: matching entrance year, sex and maternal
iron-fortification coverage. -/
def bw_group_pred (y : Int) (sex grp : String) (r : BWRow) : Bool :=
  decide (r.entrance_time.year = y) && r.sex == sex && r.mother_iron_coverage == grp

/-- Model of `get_birth_weights` (observers.py lines 506-531).  The
declared label space is `itertools.product(project_globals.YEARS,
['Male', 'Female'], ['covered', 'uncovered'])`; `globals.YEARS` is passed
explicitly (the snapshot's `globals.py` line 146 leaves it the empty
tuple, with a TODO to add year literals).  A group of the pandas groupby
is present exactly when some row matches it; an absent group is replaced
by the placeholder frame `{'birth_weight': [0.0]}`. -/
def get_birth_weights (years : List Int) (pop : List BWRow) : List (String × Option ℚ) :=
  years.bind (fun y =>
    (["Male", "Female"] : List String).bind (fun sex =>
      (["covered", "uncovered"] : List String).bind (fun grp =>
        let group := pop.filter (bw_group_pred y sex grp)
        let bws := if group.isEmpty then [(0 : ℚ)] else group.map (fun r => r.birth_weight)
        [(birth_weight_mean_key y sex grp, pandas_mean bws),
         (birth_weight_sd_key y sex grp, pandas_var_sample bws)])))

/-! ## The hemoglobin observer

`HemoglobinLevelObserver` keeps raw per-category sample lists: the
results template maps every key of the declared label space to the
placeholder list `[0.0]`; each collect-metrics step extends the lists
with the step's raw hemoglobin readings; and `post_process_hemoglobin`
reduces every list to its mean and population variance at metrics time. -/

/-- Hemoglobin-status groups.  The labels attached by
`HemoglobinLevelObserver.on_collect_metrics` (observers.py line 617);
`globals.HEMOGLOBIN_STATUS_GROUPS`, absent from the snapshot's
`globals.py`, must coincide with them for the template keys to match. -/
def HEMOGLOBIN_STATUS_GROUPS : List String := ["covered", "uncovered"]

/-- Hemoglobin-responsiveness groups (observers.py line 618). -/
def HEMOGLOBIN_RESPONSE_GROUPS : List String := ["responsive", "non-responsive"]

/-- Sexes as used in result keys (`globals.SEXES`, globals.py line 144). -/
def SEXES : List String := ["male", "female"]

/-- Hemoglobin mean key for one category
(`'hemoglobin_mean_among_{sex}_at_age_{age}_status_{cov}_responsive_{resp}'`,
observers.py lines 626-627 and 636-638). -/
def hemoglobin_mean_key (sex age status response : String) : String :=
  "hemoglobin_mean_among_" ++ sex ++ "_at_age_" ++ age ++ "_status_" ++ status
    ++ "_responsive_" ++ response

/-- Model of `HemoglobinLevelObserver.get_results_template` (observers.py
lines 630-639): every key of the product space
`HEMOGLOBIN_AGE_GROUPS x STATUS x RESPONSE x SEXES` maps to the
placeholder sample list `[0.0]`.  The age-group labels
(`globals.HEMOGLOBIN_AGE_GROUPS`, absent from the snapshot's
`globals.py`) are passed explicitly. -/
def get_results_template (ages : List String) : List (String × List ℚ) :=
  ages.bind (fun age =>
    HEMOGLOBIN_STATUS_GROUPS.bind (fun status =>
      HEMOGLOBIN_RESPONSE_GROUPS.bind (fun response =>
        SEXES.map (fun sex =>
          (hemoglobin_mean_key sex age status response, [(0 : ℚ)])))))

/-- Model of `update_list` (observers.py lines 657-659) in the observer's
usage: every key of `data` is extended onto the matching list of
`master`.  (The observer only ever passes keys drawn from the template's
label space; on a key outside `master` the Python raises `KeyError`.) -/
def update_list (master data : List (String × List ℚ)) : List (String × List ℚ) :=
  master.map (fun e => (e.1, e.2 ++ (dict_find data e.1).getD []))

/-- Model of `numpy.mean`. -/
def np_mean (l : List ℚ) : ℚ := l.sum / l.length

/-- Model of `numpy.var` (population variance, `ddof=0`). -/
def np_var (l : List ℚ) : ℚ :=
  (l.map (fun x => (x - np_mean l) * (x - np_mean l))).sum / l.length

/-- Model of `post_process_hemoglobin` (observers.py lines 662-668): for
every raw key, report the mean of its sample list under the key itself
and the population variance under the key with `'mean'` replaced by
`'variance'`. -/
def post_process_hemoglobin (raw : List (String × List ℚ)) : List (String × ℚ) :=
  raw.bind (fun e => [(e.1, np_mean e.2), (pyReplace e.1 "mean" "variance", np_var e.2)])

/-! ## The LBWSG observer -/

/-- Modelled from the spec: `globals.UNDERWEIGHT`, the 2500 g low
birth-weight threshold named in the observer's
`birth_weight_proportion_below_2500g` key but absent from the snapshot's
`globals.py`. -/
def UNDERWEIGHT : ℚ := 2500

/-- Modelled from the spec: `globals.PRETERM`, the 37-week preterm
threshold named in the observer's `gestational_age_proportion_below_37w`
key but absent from the snapshot's `globals.py`. -/
def PRETERM : ℚ := 37

/-- One simulant's row of the concatenated frame `LBWSGObserver` builds
at initialization (sex plus the raw exposure's birth weight and
gestation time). -/
structure LRow where
  idx : Nat
  sex : String
  birth_weight : ℚ
  gestation_time : ℚ
deriving DecidableEq, Repr

/-- Model of `LBWSGObserver.get_lbwsg_stats` (observers.py lines
559-578): a six-key mapping initialized to zeros and overwritten with the
computed statistics only when the population is nonempty, so the
below-threshold proportions only ever divide by a positive count. -/
def get_lbwsg_stats (pop : List LRow) : List (String × Option ℚ) :=
  if pop.isEmpty then
    [("birth_weight_mean", some 0),
     ("birth_weight_sd", some 0),
     ("birth_weight_proportion_below_2500g", some 0),
     ("gestational_age_mean", some 0),
     ("gestational_age_sd", some 0),
     ("gestational_age_proportion_below_37w", some 0)]
  else
    [("birth_weight_mean", pandas_mean (pop.map (fun r => r.birth_weight))),
     ("birth_weight_sd", pandas_var_sample (pop.map (fun r => r.birth_weight))),
     ("birth_weight_proportion_below_2500g",
      some (((pop.filter (fun r => decide (r.birth_weight < UNDERWEIGHT))).length : ℚ)
             / (pop.length : ℚ))),
     ("gestational_age_mean", pandas_mean (pop.map (fun r => r.gestation_time))),
     ("gestational_age_sd", pandas_var_sample (pop.map (fun r => r.gestation_time))),
     ("gestational_age_proportion_below_37w",
      some (((pop.filter (fun r => decide (r.gestation_time < PRETERM))).length : ℚ)
             / (pop.length : ℚ)))]

/-! ## Concrete fixtures used by witnesses and counterexamples -/

/-- An individual with high raw vitamin-A exposure, a recorded
coverage-start time, and age above the 0.5-year threshold. -/
def rowStartedHighOld : Row :=
  ⟨1, "covered", "cat2", some ⟨2021, 0⟩, 1, "", ""⟩

/-- The spec's §8 vitamin-A example: raw exposure `cat2` (high),
age 0.3 years, no coverage start recorded. -/
def rowSpecExample : Row :=
  ⟨2, "uncovered", "cat2", none, 3/10, "", ""⟩

/-- A two-individual population for the stratifier witness. -/
def popStrat : List Row :=
  [⟨0, "covered", "cat1", none, 1, "", ""⟩,
   ⟨1, "uncovered", "cat2", some ⟨2020, 5⟩, 1/4, "", ""⟩]

/-- The diarrheal-diseases transition of `globals.DISEASE_MODEL_MAP`
(globals.py lines 80-83). -/
def diarrheaTransition : TransitionString :=
  ⟨"susceptible_to_diarrheal_diseases", "diarrheal_diseases"⟩

/-- A three-individual population for the transition-count witness: two
individuals transitioned this step, one did not. -/
def popTransition : List Row :=
  [⟨0, "covered", "cat1", none, 1, "susceptible_to_diarrheal_diseases", "diarrheal_diseases"⟩,
   ⟨1, "covered", "cat1", none, 2, "susceptible_to_diarrheal_diseases", "diarrheal_diseases"⟩,
   ⟨2, "covered", "cat1", none, 3, "diarrheal_diseases", "diarrheal_diseases"⟩]

/-- The spec's §8 birth-window example population: entrants on
2020-06-01, 2021-06-01 and 2021-06-01 (June 1 is ordinal day 152,
0-based day 151 in a leap year and 151 in a common year alike enough for
the model's year/day ordering; only the year matters here). -/
def popBirths : List BRow :=
  [⟨0, ⟨2020, 151⟩, "Male", "susceptible_to_neural_tube_defects"⟩,
   ⟨1, ⟨2021, 151⟩, "Female", "susceptible_to_neural_tube_defects"⟩,
   ⟨2, ⟨2021, 151⟩, "Female", "neural_tube_defects"⟩]

/-- The hemoglobin results template restricted to a single age band. -/
def hbTemplate : List (String × List ℚ) := get_results_template ["0.5"]

/-- The template key for the male covered responsive category at age
band 0.5. -/
def hbKey : String :=
  hemoglobin_mean_key "male" "0.5" "covered" "responsive"

/-- A population for the LBWSG witness: one underweight early birth, one
normal-weight late birth. -/
def popLBWSG : List LRow :=
  [⟨0, "Male", 2000, 38⟩, ⟨1, "Female", 3000, 36⟩]

/-- A population for the birth-weight witness. -/
def popBW : List BWRow :=
  [⟨0, ⟨2020, 10⟩, "Male", "covered", 3000⟩]

/-! ## C1: the codec round-trip -/

/-- C1 counterexample: decoding the encoded person-time key for
year 2020, sex male, age group early_neonatal, folic-acid group covered
and vitamin-A group uncovered does not recover the original year: the
reshaper's `year` column receives the composite `'2020_among_male'` (and
`ProcessedColumns`, the full set of columns `split_processing_column`
assigns, has no sex column at all), so
`decode(encode(measure, label)) == (measure, label)` fails. -/
theorem split_processing_column_not_roundtrip :
    split_processing_column
        [some (update_labels_key (person_time_column "2020" "male" "early_neonatal")
                "covered" "uncovered")] false
      = some { measure := [some "person_time"]
               cause := none
               year := [some "2020_among_male"]
               age_group := [some "early_neonatal"]
               folic_acid_fortification_group := [some "covered"]
               vitamin_a_fortification_group := [some "uncovered"] }
    ∧ ([some "2020_among_male"] : List (Option String)) ≠ [some "2020"] := by
  decide

/-- C1 (amended): for every person-time key built from the column
template in `globals` plus the stratifier's
`'_folic_acid_<g>_vitamin_a_<g>'` suffix over a representative label
space, the reshaper's split recovers the original measure, age group,
folic-acid group and vitamin-A group exactly, while the `year` column
receives the concatenation `'<year>_among_<sex>'` of the original year
and sex, and no separate sex column is produced. -/
theorem split_processing_column_roundtrip :
    ∀ year ∈ (["2020", "2021", "2022"] : List String),
    ∀ sex ∈ SEXES,
    ∀ ag ∈ (["early_neonatal", "late_neonatal", "post_neonatal", "1_to_4"] : List String),
    ∀ fa ∈ FOLIC_ACID_FORTIFICATION_GROUPS,
    ∀ va ∈ VITAMIN_A_FORTIFICATION_GROUPS,
      split_processing_column
          [some (update_labels_key (person_time_column year sex ag) fa va)] false
        = some { measure := [some "person_time"]
                 cause := none
                 year := [some (year ++ "_among_" ++ sex)]
                 age_group := [some ag]
                 folic_acid_fortification_group := [some fa]
                 vitamin_a_fortification_group := [some va] } := by
  decide

/-- C1 witness: the amended round-trip at one concrete label tuple. -/
theorem split_processing_column_roundtrip_witness :
    split_processing_column
        [some (update_labels_key (person_time_column "2021" "female" "1_to_4")
                "uncovered" "effectively_covered")] false
      = some { measure := [some "person_time"]
               cause := none
               year := [some "2021_among_female"]
               age_group := [some "1_to_4"]
               folic_acid_fortification_group := [some "uncovered"]
               vitamin_a_fortification_group := [some "effectively_covered"] } :=
  split_processing_column_roundtrip "2021" (by decide) "female" (by decide)
    "1_to_4" (by decide) "uncovered" (by decide) "effectively_covered" (by decide)

/-! ## C9: malformed keys during decode -/

/-- C9 counterexample: a key matching no delimiter grammar (`'foo'`)
alongside a well-formed key does not make the reshaper raise — the decode
returns normally, and the malformed key's row silently receives missing
(`NaN`) year, age-group and fortification-group fields. -/
theorem split_processing_column_malformed_silent :
    split_processing_column
        [some (update_labels_key (person_time_column "2021" "male" "late_neonatal")
                "covered" "effectively_covered"),
         some "foo"] false
      = some { measure := [some "person_time", some "foo"]
               cause := none
               year := [some "2021_among_male", none]
               age_group := [some "late_neonatal", none]
               folic_acid_fortification_group := [some "covered", none]
               vitamin_a_fortification_group := [some "effectively_covered", none] } := by
  decide

/-- C9 (amended): the reshaper's decode raises only at column level, when
malformedness changes the number of delimiter-separated parts yielded for
the whole column (as when every key lacks the `'_in_'` delimiter); a
malformed key mixed with well-formed keys is decoded without any error,
its unmatched fields silently becoming missing values rather than raising
a decoding error identifying the key. -/
theorem split_processing_column_error_column_level :
    split_processing_column [some "foo"] false = none
    ∧ split_processing_column
        [some (update_labels_key (person_time_column "2020" "female" "post_neonatal")
                "uncovered" "uncovered"),
         some "foo"] false
      ≠ none := by
  decide

/-! ## C3: the vitamin-A coverage rule -/

/-- C3 counterexample: an individual with high raw exposure (`cat2`), a
recorded coverage start, and age above 0.5 years satisfies the claim's
"covered if raw exposure high AND coverage started" branch, but the code
classifies the individual `effectively_covered`, not `covered` (the
code's covered rule tests raw exposure *low* with coverage started). -/
theorem vitamin_a_covered_not_claim_rule :
    (rowStartedHighOld.vitamin_a_raw = "cat2"
      ∧ rowStartedHighOld.vitamin_a_coverage_start.isSome = true)
    ∧ vitamin_a_covered rowStartedHighOld = some "effectively_covered"
    ∧ vitamin_a_covered rowStartedHighOld ≠ some "covered" := by
  with_unfolding_all decide

/-- C3 (amended): for every individual whose raw exposure is one of the
two declared categories, the assigned category is: effectively-covered if
raw exposure is high (`cat2`) and age > 0.5; covered if (raw exposure
*low* (`cat1`) and coverage started) or (raw exposure high and
age ≤ 0.5); uncovered otherwise (raw exposure low and not started).  In
particular the spec's example — raw exposure high, age 0.3, no coverage
start — is classified covered. -/
theorem vitamin_a_covered_rule (r : Row)
    (h : r.vitamin_a_raw = "cat1" ∨ r.vitamin_a_raw = "cat2") :
    vitamin_a_covered r
      = some (if r.vitamin_a_raw = "cat2" ∧ ¬(r.age ≤ 1/2) then "effectively_covered"
              else if (r.vitamin_a_raw = "cat1" ∧ r.vitamin_a_coverage_start.isSome)
                      ∨ (r.vitamin_a_raw = "cat2" ∧ r.age ≤ 1/2) then "covered"
              else "uncovered") := by
  rcases h with h | h
  · by_cases hs : r.vitamin_a_coverage_start.isSome <;>
      simp [vitamin_a_covered, h, hs]
  · simp [vitamin_a_covered, h]
    split_ifs with h1 h2
    · rfl
    · rfl
    · exact absurd (not_lt.mp h1) h2

/-- C3 witness: the spec's §8 example individual (raw exposure `cat2`,
age 0.3, no coverage start) is classified covered. -/
theorem vitamin_a_covered_rule_witness :
    vitamin_a_covered rowSpecExample = some "covered" := by
  rw [vitamin_a_covered_rule rowSpecExample (Or.inr rfl)]
  with_unfolding_all decide

/-! ## C2: the stratifier yields a partition -/

/-- The empty-population special case of `ResultsStratifier.group` yields
the same subgroups as filtering, so the two forms coincide. -/
theorem stratifier_group_eq (pop : List Row) :
    stratifier_group pop
      = stratificationLabels.map (fun g => (g, pop.filter (in_group g))) := by
  cases pop <;> simp [stratifier_group]

/-- Membership in the label product space, componentwise. -/
theorem mem_stratificationLabels (a b : String) :
    (a, b) ∈ stratificationLabels
      ↔ a ∈ FOLIC_ACID_FORTIFICATION_GROUPS ∧ b ∈ VITAMIN_A_FORTIFICATION_GROUPS := by
  simp [stratificationLabels]

/-- The row mask, unfolded to its two label equations. -/
theorem in_group_iff (g : String × String) (r : Row) :
    in_group g r = true
      ↔ folic_acid_covered r = g.1 ∧ vitamin_a_covered r = some g.2 := by
  simp [in_group]

/-- On a declared raw exposure category, the derived vitamin-A label is
one of the three declared groups. -/
theorem vitamin_a_covered_total (r : Row)
    (h : r.vitamin_a_raw = "cat1" ∨ r.vitamin_a_raw = "cat2") :
    ∃ v ∈ VITAMIN_A_FORTIFICATION_GROUPS, vitamin_a_covered r = some v := by
  rcases h with h | h
  · by_cases hs : r.vitamin_a_coverage_start.isSome <;>
      simp [vitamin_a_covered, h, hs, VITAMIN_A_FORTIFICATION_GROUPS]
  · simp only [vitamin_a_covered, h]
    split_ifs <;> simp [VITAMIN_A_FORTIFICATION_GROUPS]

/-- C2: for any population snapshot whose rows carry a declared
folic-acid group and a declared raw vitamin-A exposure category, the
subgroups yielded by `ResultsStratifier.group` partition the population:
the yielded labels are exactly the declared 2-D product space, each
exactly once (an empty subgroup is still yielded with its label); every
row belongs to some yielded subgroup and every subgroup row comes from
the population, so the union of the subgroups' row sets is the input; and
subgroups with distinct labels are disjoint. -/
theorem stratifier_group_partition (pop : List Row)
    (h : ∀ r ∈ pop, r.folic_acid_fortification ∈ FOLIC_ACID_FORTIFICATION_GROUPS
          ∧ (r.vitamin_a_raw = "cat1" ∨ r.vitamin_a_raw = "cat2")) :
    ((stratifier_group pop).map Prod.fst = stratificationLabels
        ∧ stratificationLabels.Nodup)
    ∧ (∀ r ∈ pop, ∃ g ∈ stratifier_group pop, r ∈ g.2)
    ∧ (∀ g ∈ stratifier_group pop, ∀ r ∈ g.2, r ∈ pop)
    ∧ (∀ g1 ∈ stratifier_group pop, ∀ g2 ∈ stratifier_group pop,
        g1.1 ≠ g2.1 → ∀ r ∈ g1.2, r ∉ g2.2) := by
  refine ⟨⟨?_, by decide⟩, ?_, ?_, ?_⟩
  · rw [stratifier_group_eq, List.map_map]
    rfl
  · intro r hr
    obtain ⟨hfa, hraw⟩ := h r hr
    obtain ⟨v, hv, hcov⟩ := vitamin_a_covered_total r hraw
    refine ⟨((folic_acid_covered r, v), pop.filter (in_group (folic_acid_covered r, v))),
            ?_, ?_⟩
    · rw [stratifier_group_eq]
      exact List.mem_map.mpr ⟨(folic_acid_covered r, v),
        (mem_stratificationLabels _ _).mpr ⟨hfa, hv⟩, rfl⟩
    · exact List.mem_filter.mpr ⟨hr, (in_group_iff _ _).mpr ⟨rfl, hcov⟩⟩
  · intro g hg r hr
    rw [stratifier_group_eq] at hg
    obtain ⟨l, -, hgl⟩ := List.mem_map.mp hg
    subst hgl
    exact (List.mem_filter.mp hr).1
  · intro g1 hg1 g2 hg2 hne r hr1 hr2
    rw [stratifier_group_eq] at hg1 hg2
    obtain ⟨l1, _, hgl1⟩ := List.mem_map.mp hg1
    obtain ⟨l2, _, hgl2⟩ := List.mem_map.mp hg2
    subst hgl1; subst hgl2
    obtain ⟨-, hin1⟩ := List.mem_filter.mp hr1
    obtain ⟨-, hin2⟩ := List.mem_filter.mp hr2
    obtain ⟨hfa1, hva1⟩ := (in_group_iff _ _).mp hin1
    obtain ⟨hfa2, hva2⟩ := (in_group_iff _ _).mp hin2
    exact hne (Prod.ext (hfa1 ▸ hfa2.symm ▸ rfl)
      (Option.some_injective _ (hva1 ▸ hva2.symm ▸ rfl)))

/-- C2 witness: the partition property at a concrete two-individual
population. -/
theorem stratifier_group_partition_witness :
    ((stratifier_group popStrat).map Prod.fst = stratificationLabels
        ∧ stratificationLabels.Nodup)
    ∧ (∀ r ∈ popStrat, ∃ g ∈ stratifier_group popStrat, r ∈ g.2)
    ∧ (∀ g ∈ stratifier_group popStrat, ∀ r ∈ g.2, r ∈ popStrat)
    ∧ (∀ g1 ∈ stratifier_group popStrat, ∀ g2 ∈ stratifier_group popStrat,
        g1.1 ≠ g2.1 → ∀ r ∈ g1.2, r ∉ g2.2) :=
  stratifier_group_partition popStrat (by decide)

/-! ## C4: additivity of the accumulator -/

/-- Reading a counter after a single `Counter.__setitem__`. -/
theorem counter_lookup_set (c : List (String × ℚ)) (k : String) (v : ℚ) (k' : String) :
    counter_lookup (counter_set c k v) k' = if k = k' then v else counter_lookup c k' := by
  induction c with
  | nil => simp [counter_set, counter_lookup]
  | cons e rest ih =>
    obtain ⟨ek, ev⟩ := e
    by_cases he : ek = k
    · subst he
      by_cases hk : ek = k' <;> simp [counter_set, counter_lookup, hk]
    · by_cases hk : ek = k'
      · subst hk
        simp [counter_set, counter_lookup, he, Ne.symm he]
      · simp [counter_set, counter_lookup, he, hk, ih]

/-- Reading a counter after one `Counter.update`: the existing total
plus the partial's key-wise contribution. -/
theorem counter_lookup_update (p c : List (String × ℚ)) (k : String) :
    counter_lookup (counter_update c p) k = counter_lookup c k + partial_sum p k := by
  induction p generalizing c with
  | nil => simp [counter_update, partial_sum]
  | cons e rest ih =>
    obtain ⟨ek, ev⟩ := e
    show counter_lookup
        (counter_update (counter_set c ek (counter_lookup c ek + ev)) rest) k = _
    rw [ih, counter_lookup_set]
    by_cases hk : ek = k
    · subst hk; simp [partial_sum]; ring
    · simp [partial_sum, hk]

/-- A key outside a mapping contributes nothing. -/
theorem partial_sum_of_not_mem (c : List (String × ℚ)) (k : String)
    (h : k ∉ c.map Prod.fst) : partial_sum c k = 0 := by
  induction c with
  | nil => rfl
  | cons e rest ih =>
    simp only [List.map_cons, List.mem_cons] at h
    push_neg at h
    have hne : e.1 ≠ k := fun heq => h.1 heq.symm
    simp [partial_sum, hne, ih h.2]

/-- On a mapping with distinct keys (any Python dict or `Counter`), the
key-wise contribution is exactly the stored value. -/
theorem partial_sum_eq_lookup (c : List (String × ℚ)) (k : String)
    (h : (c.map Prod.fst).Nodup) : partial_sum c k = counter_lookup c k := by
  induction c with
  | nil => rfl
  | cons e rest ih =>
    obtain ⟨ek, ev⟩ := e
    simp only [List.map_cons, List.nodup_cons] at h
    by_cases hk : ek = k
    · subst hk
      simp [partial_sum, counter_lookup, partial_sum_of_not_mem rest ek h.1]
    · simp [partial_sum, counter_lookup, hk, ih h.2]

/-- The keys present after `Counter.__setitem__`. -/
theorem counter_set_mem_keys (c : List (String × ℚ)) (k : String) (v : ℚ) (l : String) :
    l ∈ (counter_set c k v).map Prod.fst ↔ l ∈ c.map Prod.fst ∨ l = k := by
  induction c with
  | nil => simp [counter_set]
  | cons e rest ih =>
    by_cases he : e.1 = k
    · subst he
      simp [counter_set]
      tauto
    · simp [counter_set, he, ih]
      tauto

/-- `Counter.__setitem__` keeps keys distinct. -/
theorem counter_set_nodup (c : List (String × ℚ)) (k : String) (v : ℚ)
    (h : (c.map Prod.fst).Nodup) : ((counter_set c k v).map Prod.fst).Nodup := by
  induction c with
  | nil => simp [counter_set]
  | cons e rest ih =>
    simp only [List.map_cons, List.nodup_cons] at h
    by_cases he : e.1 = k
    · subst he
      have hset : counter_set (e :: rest) e.1 v = (e.1, v) :: rest := by
        simp [counter_set]
      rw [hset, List.map_cons]
      exact List.nodup_cons.mpr h
    · simp only [counter_set, if_neg he, List.map_cons, List.nodup_cons]
      refine ⟨fun hmem => ?_, ih h.2⟩
      rcases (counter_set_mem_keys rest k v e.1).mp hmem with hm | hm
      · exact h.1 hm
      · exact he hm

/-- `Counter.update` keeps keys distinct. -/
theorem counter_update_nodup (p c : List (String × ℚ))
    (h : (c.map Prod.fst).Nodup) : ((counter_update c p).map Prod.fst).Nodup := by
  induction p generalizing c with
  | nil => exact h
  | cons e rest ih =>
    exact ih _ (counter_set_nodup c e.1 _ h)

/-- A counter accumulated from empty by `Counter.update` has distinct
keys. -/
theorem key_wise_sum_nodup (ps : List (List (String × ℚ))) :
    ((key_wise_sum ps).map Prod.fst).Nodup := by
  have general : ∀ (qs : List (List (String × ℚ))) (c : List (String × ℚ)),
      (c.map Prod.fst).Nodup → ((qs.foldl counter_update c).map Prod.fst).Nodup := by
    intro qs
    induction qs with
    | nil => exact fun c h => h
    | cons p rest ih => exact fun c h => ih _ (counter_update_nodup p c h)
  exact general ps [] (by simp)

/-- Reading a counter after a sequence of `Counter.update` calls: the
initial total plus every partial's key-wise contribution. -/
theorem counter_foldl_lookup (ps : List (List (String × ℚ))) (c : List (String × ℚ))
    (k : String) :
    counter_lookup (ps.foldl counter_update c) k
      = counter_lookup c k + (ps.map (fun p => partial_sum p k)).sum := by
  induction ps generalizing c with
  | nil => simp
  | cons p rest ih =>
    show counter_lookup (rest.foldl counter_update (counter_update c p)) k = _
    rw [ih, counter_lookup_update]
    simp [add_assoc]

/-- C4: the accumulator is additive, associative and commutative — after
updating with the partials `[p1, ..., pn]` the value at every key is the
initial value plus the key-wise sum of all the partials' contributions
(a key absent before its first contribution counts as 0); the final
mapping does not depend on the order of the updates; and it agrees with a
single update by the key-wise sum of all the partials. -/
theorem counter_update_additive (c : List (String × ℚ)) (ps qs : List (List (String × ℚ)))
    (hperm : ps.Perm qs) (k : String) :
    counter_lookup (ps.foldl counter_update c) k
        = counter_lookup c k + (ps.map (fun p => partial_sum p k)).sum
    ∧ counter_lookup (ps.foldl counter_update c) k
        = counter_lookup (qs.foldl counter_update c) k
    ∧ counter_lookup (ps.foldl counter_update c) k
        = counter_lookup (counter_update c (key_wise_sum ps)) k := by
  refine ⟨counter_foldl_lookup ps c k, ?_, ?_⟩
  · rw [counter_foldl_lookup, counter_foldl_lookup]
    rw [(hperm.map (fun p => partial_sum p k)).sum_eq]
  · rw [counter_foldl_lookup, counter_lookup_update,
        partial_sum_eq_lookup _ _ (key_wise_sum_nodup ps),
        show key_wise_sum ps = ps.foldl counter_update [] from rfl,
        counter_foldl_lookup]
    simp [counter_lookup]

/-- C4 witness: additivity at two concrete partial mappings, read at key
`'a'`, with the updates applied in both orders. -/
theorem counter_update_additive_witness :
    (counter_lookup ([[("a", (1:ℚ)), ("b", 2)], [("a", 3)]].foldl counter_update []) "a"
        = counter_lookup ([] : List (String × ℚ)) "a"
          + (([[("a", (1:ℚ)), ("b", 2)], [("a", 3)]] : List (List (String × ℚ))).map
              (fun p => partial_sum p "a")).sum
      ∧ counter_lookup ([[("a", (1:ℚ)), ("b", 2)], [("a", 3)]].foldl counter_update []) "a"
          = counter_lookup ([[("a", 3)], [("a", (1:ℚ)), ("b", 2)]].foldl counter_update []) "a"
      ∧ counter_lookup ([[("a", (1:ℚ)), ("b", 2)], [("a", 3)]].foldl counter_update []) "a"
          = counter_lookup
              (counter_update [] (key_wise_sum [[("a", (1:ℚ)), ("b", 2)], [("a", 3)]])) "a")
    ∧ counter_lookup ([[("a", (1:ℚ)), ("b", 2)], [("a", 3)]].foldl counter_update []) "a" = 4 :=
  ⟨counter_update_additive [] [[("a", (1:ℚ)), ("b", 2)], [("a", 3)]]
      [[("a", 3)], [("a", (1:ℚ)), ("b", 2)]] (by with_unfolding_all decide) "a",
   by with_unfolding_all decide⟩

/-! ## C5: transition counts and their year attribution -/

/-- C5: at a collect-metrics event, the count reported for a known
transition is exactly the number of individuals whose previous-state
column equals the transition's source state and whose current
disease-state column equals its target state, reported under a single
key whose year is the year of the step's event timestamp — so a step
that spans a calendar-year boundary attributes all its transitions to
that one year (the step's starting year, per the source comment "Accrue
all counts and time to the current year"). -/
theorem get_transition_count_spec (pop : List Row) (t : TransitionString)
    (by_year : Bool) (e : Date) :
    get_transition_count pop t by_year e
        = [(t.str ++ "_event_count" ++ (if by_year then "_in_" ++ toString e.year else ""),
            (pop.countP (fun r => decide (r.previous_state = t.from_state)
              && decide (r.current_state = t.to_state)) : ℚ))]
    ∧ (∀ e2 : Date, e2.year = e.year →
        get_transition_count pop t by_year e2 = get_transition_count pop t by_year e) := by
  constructor
  · simp [get_transition_count, List.countP_eq_length_filter]
  · intro e2 h2
    simp [get_transition_count, h2]

/-- C5 witness: a concrete step whose event timestamp (January 2021)
falls in the calendar year after the step's start; both individuals who
transitioned are counted, both attributed to the single year 2021, and a
different event timestamp in the same year gives the identical result. -/
theorem get_transition_count_spec_witness :
    (get_transition_count popTransition diarrheaTransition true ⟨2021, 16⟩
        = [(diarrheaTransition.str ++ "_event_count" ++ "_in_" ++ toString (2021 : Int),
            (popTransition.countP (fun r =>
                decide (r.previous_state = diarrheaTransition.from_state)
                && decide (r.current_state = diarrheaTransition.to_state)) : ℚ))])
    ∧ get_transition_count popTransition diarrheaTransition true ⟨2021, 200⟩
        = get_transition_count popTransition diarrheaTransition true ⟨2021, 16⟩
    ∧ popTransition.countP (fun r =>
          decide (r.previous_state = diarrheaTransition.from_state)
          && decide (r.current_state = diarrheaTransition.to_state)) = 2 :=
  ⟨(get_transition_count_spec popTransition diarrheaTransition true ⟨2021, 16⟩).1,
   (get_transition_count_spec popTransition diarrheaTransition true ⟨2021, 16⟩).2
     ⟨2021, 200⟩ rfl,
   by decide⟩

/-! ## C7: the birth observer's time windows -/

/-- C7: with yearly spans, for every year of the simulation range the
birth observer emits a live-births count equal to the number of entrants
whose entrance time lies in the half-open calendar-year span clipped to
the simulation bounds `[sim_start, sim_end)`. -/
theorem get_births_window (pop : List BRow) (sim_start sim_end : Date) (y : Int)
    (hy : y ∈ intRange sim_start.year (sim_end.year + 1)) :
    ("live_births_in_" ++ toString y,
      ((pop.filter (fun r =>
          Date.leb (dateMax sim_start (jan1 y)) r.entrance_time
          && Date.ltb r.entrance_time (dateMin sim_end (jan1 (y + 1))))).length : ℚ))
      ∈ get_births true false pop sim_start sim_end := by
  have hkey : ("live_births" ++ (if (true : Bool) then "_in_" ++ toString y else "")) ++ ""
      = "live_births_in_" ++ toString y := by
    rw [if_pos rfl, String.append_empty, ← String.append_assoc]
    exact congrArg (fun s => s ++ toString y) (by decide)
  unfold get_births get_time_iterable
  rw [if_pos rfl]
  apply List.mem_bind.mpr
  refine ⟨(toString y, (jan1 y, jan1 (y + 1))), List.mem_map.mpr ⟨y, hy, rfl⟩, ?_⟩
  apply List.mem_append.mpr
  left
  have hsg : sexGroups false = [("", fun _ => true)] := rfl
  rw [hsg, List.map_cons, List.map_nil]
  apply List.mem_singleton.mpr
  have hfilter : ∀ l : List BRow, l.filter (fun _ => true) = l := fun l => by simp
  rw [hfilter]
  exact Prod.ext hkey.symm rfl

/-- C7 witness: the spec's §8 example — simulation 2020-01-01 to
2023-01-01, yearly spans, entrants on 2020-06-01, 2021-06-01 and
2021-06-01 — yields live-birth counts 1, 2 and 0 for the years 2020,
2021 and 2022. -/
theorem get_births_window_witness :
    (("live_births_in_2020", (1 : ℚ)) ∈ get_births true false popBirths ⟨2020, 0⟩ ⟨2023, 0⟩)
    ∧ (("live_births_in_2021", (2 : ℚ)) ∈ get_births true false popBirths ⟨2020, 0⟩ ⟨2023, 0⟩)
    ∧ (("live_births_in_2022", (0 : ℚ)) ∈ get_births true false popBirths ⟨2020, 0⟩ ⟨2023, 0⟩) :=
  ⟨(by decide :
      ("live_births_in_2020",
        ((popBirths.filter (fun r =>
            Date.leb (dateMax ⟨2020, 0⟩ (jan1 2020)) r.entrance_time
            && Date.ltb r.entrance_time (dateMin ⟨2023, 0⟩ (jan1 (2020 + 1))))).length : ℚ))
        = ("live_births_in_2020", (1 : ℚ)))
    ▸ get_births_window popBirths ⟨2020, 0⟩ ⟨2023, 0⟩ 2020 (by decide),
   (by decide :
      ("live_births_in_2021",
        ((popBirths.filter (fun r =>
            Date.leb (dateMax ⟨2020, 0⟩ (jan1 2021)) r.entrance_time
            && Date.ltb r.entrance_time (dateMin ⟨2023, 0⟩ (jan1 (2021 + 1))))).length : ℚ))
        = ("live_births_in_2021", (2 : ℚ)))
    ▸ get_births_window popBirths ⟨2020, 0⟩ ⟨2023, 0⟩ 2021 (by decide),
   (by decide :
      ("live_births_in_2022",
        ((popBirths.filter (fun r =>
            Date.leb (dateMax ⟨2020, 0⟩ (jan1 2022)) r.entrance_time
            && Date.ltb r.entrance_time (dateMin ⟨2023, 0⟩ (jan1 (2022 + 1))))).length : ℚ))
        = ("live_births_in_2022", (0 : ℚ)))
    ▸ get_births_window popBirths ⟨2020, 0⟩ ⟨2023, 0⟩ 2022 (by decide)⟩

/-! ## C8: the birth-weight observer's key schema -/

/-- Both statistic entries for a label combination of the declared space
are present in `get_birth_weights`, carrying the group's statistics
(computed from the placeholder `[0.0]` when the group is absent). -/
theorem get_birth_weights_mem (years : List Int) (pop : List BWRow) (y : Int)
    (sex grp : String) (hy : y ∈ years)
    (hsex : sex ∈ (["Male", "Female"] : List String))
    (hgrp : grp ∈ (["covered", "uncovered"] : List String)) :
    (birth_weight_mean_key y sex grp,
      pandas_mean (if (pop.filter (bw_group_pred y sex grp)).isEmpty then [(0 : ℚ)]
                   else (pop.filter (bw_group_pred y sex grp)).map (fun r => r.birth_weight)))
      ∈ get_birth_weights years pop
    ∧ (birth_weight_sd_key y sex grp,
      pandas_var_sample (if (pop.filter (bw_group_pred y sex grp)).isEmpty then [(0 : ℚ)]
                   else (pop.filter (bw_group_pred y sex grp)).map (fun r => r.birth_weight)))
      ∈ get_birth_weights years pop := by
  constructor
  · exact List.mem_bind.mpr ⟨y, hy, List.mem_bind.mpr ⟨sex, hsex,
      List.mem_bind.mpr ⟨grp, hgrp, List.mem_cons_self _ _⟩⟩⟩
  · exact List.mem_bind.mpr ⟨y, hy, List.mem_bind.mpr ⟨sex, hsex,
      List.mem_bind.mpr ⟨grp, hgrp, List.mem_cons_of_mem _ (List.mem_cons_self _ _)⟩⟩⟩

/-- C8: for every (year, sex, iron-coverage group) combination of the
declared label space, the birth-weight observer's output contains both
the mean and the standard-deviation key; when no individual falls in the
group, the keys are still present, carrying the placeholder degenerate
values (mean 0.0 and the `NaN` standard deviation of the single
placeholder observation) rather than being omitted. -/
theorem get_birth_weights_schema (years : List Int) (pop : List BWRow) (y : Int)
    (sex grp : String) (hy : y ∈ years)
    (hsex : sex ∈ (["Male", "Female"] : List String))
    (hgrp : grp ∈ (["covered", "uncovered"] : List String)) :
    (∃ v, (birth_weight_mean_key y sex grp, v) ∈ get_birth_weights years pop)
    ∧ (∃ v, (birth_weight_sd_key y sex grp, v) ∈ get_birth_weights years pop)
    ∧ ((∀ r ∈ pop, bw_group_pred y sex grp r = false) →
        (birth_weight_mean_key y sex grp, some (0 : ℚ)) ∈ get_birth_weights years pop
        ∧ (birth_weight_sd_key y sex grp, (none : Option ℚ)) ∈ get_birth_weights years pop) := by
  obtain ⟨hm, hs⟩ := get_birth_weights_mem years pop y sex grp hy hsex hgrp
  refine ⟨⟨_, hm⟩, ⟨_, hs⟩, fun hempty => ?_⟩
  have hfil : pop.filter (bw_group_pred y sex grp) = [] := by
    simp only [List.filter_eq_nil_iff]
    intro r hr
    simp [hempty r hr]
  rw [hfil] at hm hs
  simp only [List.isEmpty_nil, if_true, pandas_mean, pandas_var_sample] at hm hs
  simpa using And.intro hm hs

/-- C8 witness: with declared year 2020 and a population holding a single
male covered entrant, the empty (2020, Female, uncovered) group still
receives both keys, with the placeholder values. -/
theorem get_birth_weights_schema_witness :
    (birth_weight_mean_key 2020 "Female" "uncovered", some (0 : ℚ))
        ∈ get_birth_weights [2020] popBW
    ∧ (birth_weight_sd_key 2020 "Female" "uncovered", (none : Option ℚ))
        ∈ get_birth_weights [2020] popBW :=
  (get_birth_weights_schema [2020] popBW 2020 "Female" "uncovered"
      (by decide) (by decide) (by decide)).2.2 (by decide)

/-! ## C10: the LBWSG observer's uniform schema -/

/-- C10: `get_lbwsg_stats` always returns the same six keys in the same
order; on an empty population every value is 0 (so metrics keep a uniform
schema even when no simulants exist); and on a nonempty population the
below-threshold proportions divide by the population size, which is
positive — never by zero. -/
theorem get_lbwsg_stats_schema (pop : List LRow) :
    ((get_lbwsg_stats pop).map Prod.fst
        = ["birth_weight_mean", "birth_weight_sd", "birth_weight_proportion_below_2500g",
           "gestational_age_mean", "gestational_age_sd",
           "gestational_age_proportion_below_37w"])
    ∧ (pop = [] →
        get_lbwsg_stats pop
          = [("birth_weight_mean", some 0),
             ("birth_weight_sd", some 0),
             ("birth_weight_proportion_below_2500g", some 0),
             ("gestational_age_mean", some 0),
             ("gestational_age_sd", some 0),
             ("gestational_age_proportion_below_37w", some 0)])
    ∧ (pop ≠ [] →
        dict_find (get_lbwsg_stats pop) "birth_weight_proportion_below_2500g"
            = some (((pop.filter (fun r => decide (r.birth_weight < UNDERWEIGHT))).length : ℚ)
                     / (pop.length : ℚ))
        ∧ dict_find (get_lbwsg_stats pop) "gestational_age_proportion_below_37w"
            = some (((pop.filter (fun r => decide (r.gestation_time < PRETERM))).length : ℚ)
                     / (pop.length : ℚ))
        ∧ 0 < pop.length) := by
  refine ⟨?_, fun h => by subst h; rfl, fun h => ?_⟩
  · cases pop <;> rfl
  · obtain ⟨a, rest, rfl⟩ : ∃ a rest, pop = a :: rest := by
      cases pop with
      | nil => exact absurd rfl h
      | cons a rest => exact ⟨a, rest, rfl⟩
    exact ⟨rfl, rfl, by simp⟩

/-- C10 witness: the schema at the empty population and at a concrete
two-individual population, where the below-2500g proportion is 1/2. -/
theorem get_lbwsg_stats_schema_witness :
    ((get_lbwsg_stats popLBWSG).map Prod.fst
        = ["birth_weight_mean", "birth_weight_sd", "birth_weight_proportion_below_2500g",
           "gestational_age_mean", "gestational_age_sd",
           "gestational_age_proportion_below_37w"])
    ∧ get_lbwsg_stats []
        = [("birth_weight_mean", some 0),
           ("birth_weight_sd", some 0),
           ("birth_weight_proportion_below_2500g", some 0),
           ("gestational_age_mean", some 0),
           ("gestational_age_sd", some 0),
           ("gestational_age_proportion_below_37w", some 0)]
    ∧ dict_find (get_lbwsg_stats popLBWSG) "birth_weight_proportion_below_2500g"
        = some (mkRat 1 2) :=
  ⟨(get_lbwsg_stats_schema popLBWSG).1,
   (get_lbwsg_stats_schema []).2.1 rfl,
   by
     rw [((get_lbwsg_stats_schema popLBWSG).2.2 (by decide)).1]
     with_unfolding_all decide⟩

/-! ## C6: hemoglobin means and variances -/

/-- `update_list` never changes the key set (it extends values in
place). -/
theorem update_list_keys (m d : List (String × List ℚ)) :
    (update_list m d).map Prod.fst = m.map Prod.fst := by
  simp only [update_list, List.map_map]
  rfl

/-- A whole run of `update_list` steps never changes the key set. -/
theorem foldl_update_list_keys (datas : List (List (String × List ℚ)))
    (m : List (String × List ℚ)) :
    ((datas.foldl update_list m).map Prod.fst) = m.map Prod.fst := by
  induction datas generalizing m with
  | nil => rfl
  | cons d rest ih => rw [List.foldl_cons, ih, update_list_keys]

/-- Reading one key after an `update_list` step: the previous list
extended by the step's contribution at that key. -/
theorem dict_find_update_list (m d : List (String × List ℚ)) (k : String) :
    dict_find (update_list m d) k
      = (dict_find m k).map (fun v => v ++ (dict_find d k).getD []) := by
  induction m with
  | nil => rfl
  | cons e rest ih =>
    simp only [update_list, List.map_cons] at ih ⊢
    by_cases he : e.1 = k
    · simp [dict_find, he]
    · simp [dict_find, he, ih]

/-- Reading one key after a whole run: the initial list extended by every
step's contribution at that key, in order. -/
theorem dict_find_foldl_update (datas : List (List (String × List ℚ)))
    (m : List (String × List ℚ)) (k : String) :
    dict_find (datas.foldl update_list m) k
      = (dict_find m k).map
          (fun v => v ++ datas.bind (fun d => (dict_find d k).getD [])) := by
  induction datas generalizing m with
  | nil => cases h : dict_find m k <;> simp [h]
  | cons d rest ih =>
    rw [List.foldl_cons, ih, dict_find_update_list]
    cases h : dict_find m k <;> simp [h]

/-- Looking a mean key up in the post-processed results returns the mean
of its raw sample list, provided no earlier entry's variance key collides
with it. -/
theorem dict_find_post_mean (m : List (String × List ℚ)) (k : String)
    (h : ∀ e ∈ m, pyReplace e.1 "mean" "variance" ≠ k) :
    dict_find (post_process_hemoglobin m) k = (dict_find m k).map np_mean := by
  induction m with
  | nil => rfl
  | cons e rest ih =>
    have hrep := h e (List.mem_cons_self e rest)
    have ih2 := ih (fun x hx => h x (List.mem_cons_of_mem _ hx))
    simp only [post_process_hemoglobin, List.cons_bind] at ih2 ⊢
    by_cases hk : e.1 = k
    · simp [dict_find, hk]
    · simp [dict_find, hk, hrep, ih2]

/-- C6 counterexample: a category whose collected raw samples over the
run are exactly `[10, 12, 14]` does *not* report mean 12.0 — the results
template seeds every category's sample list with the placeholder `[0.0]`
(observers.py line 638), so the stored list is `[0, 10, 12, 14]` and the
reported mean is 9.0. -/
theorem hemoglobin_mean_seeded_counterexample :
    dict_find (post_process_hemoglobin
        (update_list hbTemplate [(hbKey, [10, 12, 14])])) hbKey
      = some 9
    ∧ (9 : ℚ) ≠ 12 := by
  constructor
  · with_unfolding_all decide
  · decide

/-- C6 (amended): for a category whose per-step raw sample contributions
over the whole run are `s1, ..., sn`, the final reported mean and
variance are the population mean and population variance of the stored
multiset `[0.0] ++ s1 ++ ... ++ sn` — the collected samples preceded by
the template's placeholder 0.0. -/
theorem hemoglobin_final_stats (datas : List (List (String × List ℚ))) :
    dict_find (post_process_hemoglobin (datas.foldl update_list hbTemplate)) hbKey
        = some (np_mean ((0 : ℚ) :: datas.bind (fun d => (dict_find d hbKey).getD [])))
    ∧ dict_find (post_process_hemoglobin (datas.foldl update_list hbTemplate))
          (pyReplace hbKey "mean" "variance")
        = some (np_var ((0 : ℚ) :: datas.bind (fun d => (dict_find d hbKey).getD []))) := by
  have hkeys : (datas.foldl update_list hbTemplate).map Prod.fst
      = hbTemplate.map Prod.fst := foldl_update_list_keys datas hbTemplate
  have hfind : dict_find (datas.foldl update_list hbTemplate) hbKey
      = some ((0 : ℚ) :: datas.bind (fun d => (dict_find d hbKey).getD [])) := by
    rw [dict_find_foldl_update]
    have h0 : dict_find hbTemplate hbKey = some [(0 : ℚ)] := by decide
    rw [h0]
    rfl
  constructor
  · rw [dict_find_post_mean _ _ ?hno, hfind]
    · rfl
    case hno =>
      intro e he
      have hmem : e.1 ∈ (datas.foldl update_list hbTemplate).map Prod.fst :=
        List.mem_map_of_mem _ he
      rw [hkeys] at hmem
      exact (by decide :
        ∀ x ∈ hbTemplate.map Prod.fst, pyReplace x "mean" "variance" ≠ hbKey) e.1 hmem
  · obtain ⟨e0, rest, hraw⟩ : ∃ e0 rest, datas.foldl update_list hbTemplate = e0 :: rest := by
      cases hcase : datas.foldl update_list hbTemplate with
      | nil => rw [hcase] at hkeys; exact absurd hkeys (by decide)
      | cons a l => exact ⟨a, l, rfl⟩
    have h0key : e0.1 = hbKey := by
      have h1 : (e0 :: rest).map Prod.fst = hbTemplate.map Prod.fst := hraw ▸ hkeys
      have h2 := congrArg List.head? h1
      rw [List.map_cons, List.head?_cons] at h2
      have h3 : (hbTemplate.map Prod.fst).head? = some hbKey := by decide
      rw [h3] at h2
      exact Option.some.inj h2
    have hval : e0.2 = (0 : ℚ) :: datas.bind (fun d => (dict_find d hbKey).getD []) := by
      rw [hraw] at hfind
      simp only [dict_find, h0key, if_pos] at hfind
      exact Option.some.inj hfind
    rw [hraw]
    show dict_find (post_process_hemoglobin (e0 :: rest)) (pyReplace hbKey "mean" "variance") = _
    simp only [post_process_hemoglobin, List.cons_bind, dict_find, h0key]
    have hne : hbKey ≠ pyReplace hbKey "mean" "variance" := by decide
    simp [hval, hne]
